import Mathlib

/-!
Verification of the serverless-duckdb pipeline core: a shallow embedding of
the stage sequencer (Driver), the queue-driven executor, the checkpoint
store, and the contract validation engine (schema / quality / SLA
validators and their aggregation), together with theorems settling the
specification claims about them.
-/

namespace Comboi

/-! ## Stage sequencer (Driver.execution_order)

Embeds `Driver.execution_order` from
`azure_functions/shared_packages/comboi/pipeline/driver.py`.  Python's
`str.lower()` is modelled by per-character ASCII lowering, which agrees
with it on all candidate stage names. -/

def pyLower (s : String) : String := String.mk (s.data.map Char.toLower)

def stageOrder : List String := ["bronze", "silver", "gold"]

/-- Embeds `Driver.execution_order`.  `none` models Python `None`;
the Python guard `if not selected or selected == "all"` treats `None`,
the empty string, and the exact string `"all"` alike.  A raised
`ValueError` is modelled by `Except.error`. -/
def execution_order (selected : Option String) : Except String (List String) :=
  let order := stageOrder
  match selected with
  | none => .ok order
  | some sel =>
    if sel = "" ∨ sel = "all" then .ok order
    else
      let stage := pyLower sel
      if stage ∈ order then .ok (order.drop (order.indexOf stage))
      else .error ("Unknown stage " ++ sel)

/-! ## Executor queue worker

Embeds `main` and `_enqueue_next` from `azure_functions/executor/__init__.py`.
The stage task execution (`driver.run_stage`) is an injected effect,
modelled as a function returning `Except`; the outcome records the trace
of `run_stage` invocations, the messages enqueued, and the propagated
failure, if any. -/

structure ContinuationMessage where
  config_path : String
  stage : String
  remaining : List String
deriving DecidableEq

structure WorkerOutcome where
  ranStages : List String
  enqueued : List ContinuationMessage
  failed : Option String
deriving DecidableEq

namespace Executor

/-- Embeds `_enqueue_next`: called only with non-empty `remaining`; builds
the payload `{config_path, stage := remaining[0], remaining := remaining[1:]}`
and enqueues it. -/
def enqueue_next (config_path : String) (remaining : List String) :
    List ContinuationMessage :=
  match remaining with
  | [] => []
  | next :: rest => [⟨config_path, next, rest⟩]

/-- Embeds `main`: runs `driver.run_stage(stage)` once; on success, if
`remaining` is non-empty, enqueues the next continuation message; on a
raised exception nothing is enqueued and the failure propagates. -/
def main (run_stage : String → Except String String)
    (msg : ContinuationMessage) : WorkerOutcome :=
  match run_stage msg.stage with
  | .error e => ⟨[msg.stage], [], some e⟩
  | .ok _result =>
      ⟨[msg.stage],
       if msg.remaining.isEmpty then []
       else enqueue_next msg.config_path msg.remaining,
       none⟩

end Executor

/-! ## Checkpoint store

Embeds `CheckpointStore` from
`azure_functions/shared_packages/comboi/checkpoint.py`.  The persisted
JSON document is modelled as an association list from string keys to JSON
values; each operation runs in a session that reads the document and
writes it back. -/

inductive JVal where
  | null : JVal
  | b (bb : Bool) : JVal
  | num (i : Int) : JVal
  | str (st : String) : JVal

/-- Python `dict.get(key, default)` on the parsed document. -/
def dictGet (doc : List (String × JVal)) (k : String) : Option JVal :=
  match doc with
  | [] => none
  | (k', v') :: rest => if k' = k then some v' else dictGet rest k

/-- Python `data[key] = value`: replaces in place when the key exists,
appends otherwise (dict insertion-order semantics). -/
def dictSet (doc : List (String × JVal)) (k : String) (v : JVal) :
    List (String × JVal) :=
  match doc with
  | [] => [(k, v)]
  | (k', v') :: rest =>
      if k' = k then (k, v) :: rest else (k', v') :: dictSet rest k v

namespace CheckpointStore

/-- Embeds `CheckpointStore.get`: the session reads the document, returns
`data.get(key, default)`, and writes the document back unchanged. -/
def get (doc : List (String × JVal)) (k : String) (default : JVal) :
    JVal × List (String × JVal) :=
  (match dictGet doc k with
   | some v => v
   | none => default, doc)

/-- Embeds `CheckpointStore.update`: the session reads the document, sets
`data[key] = value`, and writes it back. -/
def update (doc : List (String × JVal)) (k : String) (v : JVal) :
    List (String × JVal) :=
  dictSet doc k v

end CheckpointStore

/-! ## Contract validation engine — shared result shape

Each of `SchemaValidationResult`, `QualityValidationResult` and
`SLAValidationResult` in `src/comboi/contracts` is a
`{passed, errors, warnings}` triple; they share one Lean structure. -/

structure VResult where
  passed : Bool
  errors : List String
  warnings : List String
deriving DecidableEq

/-! ## Schema validator

Embeds `SchemaValidator.validate` and `SchemaValidator._validate_column`
from `src/comboi/contracts/schema_validator.py`.  The DuckDB view is
modelled as a list of columns carrying the `DESCRIBE` metadata (`null`
field) and the column's cells; each fixed SQL query issued by the
validator is embedded as a function over the queried column's cells. -/

inductive Val where
  | int (i : Int) : Val
  | str (st : String) : Val
deriving DecidableEq

/-- Rendering of a cell value when DuckDB casts it to text (as in the
`LIKE` pattern check and the quoted `NOT IN` list). -/
def valDisplay : Val → String
  | .int i => toString i
  | .str st => st

/-- One column of the dataset view: name, type and `null` metadata as
returned by `DESCRIBE`, plus the column's cells (`none` is SQL NULL). -/
structure DColumn where
  name : String
  colType : String
  nullStr : String
  cells : List (Option Val)
deriving DecidableEq

/-- One constraint dict of a contract column definition; a `none` field
models an absent key.  The Python code tests each key independently
(`if "not_null" in constraint ...` etc.), so several keys may be present
in one dict. -/
structure Constraint where
  not_null : Option Bool := none
  unique : Option Bool := none
  min_value : Option Int := none
  max_value : Option Int := none
  allowed_values : Option (List String) := none
  pattern : Option String := none
deriving DecidableEq

/-- Contract column definition (`ColumnDefinition` in
`contract_loader.py`; the loader defaults `constraints` to `[]`). -/
structure ColumnDefinition where
  name : String
  type : String
  nullable : Bool
  constraints : List Constraint
deriving DecidableEq

/-- Embeds `SELECT COUNT(*) FROM ds WHERE col IS NULL`. -/
def sqlNullCount (cells : List (Option Val)) : Nat :=
  cells.countP (fun c => c.isNone)

/-- Embeds the duplicate query
`SELECT COUNT(*) FROM (SELECT col, COUNT(*) FROM ds GROUP BY col HAVING COUNT(*) > 1)`:
the number of group keys occurring more than once.  SQL `GROUP BY`
collects all NULLs into a single group, so the group key is the whole
`Option Val` cell. -/
def sqlDupGroupCount (cells : List (Option Val)) : Nat :=
  (cells.dedup.filter (fun v => 1 < cells.count v)).length

/-- Embeds `SELECT COUNT(*) FROM ds WHERE col < m`; a NULL comparison is
NULL and the row is not counted, and the contract applies numeric bounds
to numeric columns. -/
def sqlBelowCount (cells : List (Option Val)) (m : Int) : Nat :=
  cells.countP (fun c =>
    match c with
    | some (.int i) => decide (i < m)
    | _ => false)

/-- Embeds `SELECT COUNT(*) FROM ds WHERE col > m`. -/
def sqlAboveCount (cells : List (Option Val)) (m : Int) : Nat :=
  cells.countP (fun c =>
    match c with
    | some (.int i) => decide (m < i)
    | _ => false)

/-- Embeds
`SELECT COUNT(*) FROM ds WHERE col NOT IN ('v1',...) AND col IS NOT NULL`
with the allowed values quoted as strings. -/
def sqlNotInCount (cells : List (Option Val)) (allowed : List String) : Nat :=
  cells.countP (fun c =>
    match c with
    | some v => decide (valDisplay v ∉ allowed)
    | none => false)

/-- SQL `s LIKE '%@%.%'`: some `'@'` occurs and a `'.'` occurs after it. -/
def likeAtDotChars : List Char → Bool
  | [] => false
  | c :: rest => if c = '@' then rest.contains '.' else likeAtDotChars rest

def likeAtDot (s : String) : Bool := likeAtDotChars s.data

/-- Embeds
`SELECT COUNT(*) FROM ds WHERE col IS NOT NULL AND col NOT LIKE '%@%.%'`. -/
def sqlNotLikeEmailCount (cells : List (Option Val)) : Nat :=
  cells.countP (fun c =>
    match c with
    | some v => !likeAtDot (valDisplay v)
    | none => false)

namespace SchemaValidator

/-- Embeds the body of the `for constraint in col_def.constraints` loop of
`SchemaValidator._validate_column`: the checks run in source order
(`not_null`, `unique`, `min_value`, `max_value`, `allowed_values` appending
to `errors`; `pattern` appending to `warnings`, and only when the pattern
contains `'@'`). -/
def constraintChecks (cd : ColumnDefinition) (c : Constraint) (col : DColumn) :
    List String × List String :=
  let e1 : List String :=
    match c.not_null with
    | some true =>
        let n := sqlNullCount col.cells
        if 0 < n then
          ["Column " ++ cd.name ++ " has " ++ toString n ++
            " NULL values but contract requires NOT NULL"]
        else []
    | _ => []
  let e2 : List String :=
    match c.unique with
    | some true =>
        if 0 < sqlDupGroupCount col.cells then
          ["Column " ++ cd.name ++ " has duplicates but contract requires UNIQUE"]
        else []
    | _ => []
  let e3 : List String :=
    match c.min_value with
    | some m =>
        let n := sqlBelowCount col.cells m
        if 0 < n then
          ["Column " ++ cd.name ++ " has " ++ toString n ++
            " values below minimum " ++ toString m]
        else []
    | none => []
  let e4 : List String :=
    match c.max_value with
    | some m =>
        let n := sqlAboveCount col.cells m
        if 0 < n then
          ["Column " ++ cd.name ++ " has " ++ toString n ++
            " values above maximum " ++ toString m]
        else []
    | none => []
  let e5 : List String :=
    match c.allowed_values with
    | some allowed =>
        let n := sqlNotInCount col.cells allowed
        if 0 < n then
          ["Column " ++ cd.name ++ " has " ++ toString n ++
            " values not in allowed list: " ++ toString allowed]
        else []
    | none => []
  let w1 : List String :=
    match c.pattern with
    | some pat =>
        if pat.data.contains '@' then
          let n := sqlNotLikeEmailCount col.cells
          if 0 < n then
            ["Column " ++ cd.name ++ " has " ++ toString n ++
              " values that may not match pattern " ++ pat]
          else []
        else []
    | none => []
  (e1 ++ e2 ++ e3 ++ e4 ++ e5, w1)

/-- Embeds `SchemaValidator._validate_column`: the nullability check on the
`DESCRIBE` metadata, then every constraint dict in order. -/
def validateColumn (cd : ColumnDefinition) (col : DColumn) :
    List String × List String :=
  let nullErr : List String :=
    if !cd.nullable && col.nullStr = "YES" then
      ["Column " ++ cd.name ++ " is nullable but contract requires NOT NULL"]
    else []
  let folded := cd.constraints.foldl
    (fun acc c =>
      let p := constraintChecks cd c col
      (acc.1 ++ p.1, acc.2 ++ p.2))
    ([], [])
  (nullErr ++ folded.1, folded.2)

/-- Embeds the per-contract-column loop of `SchemaValidator.validate`:
columns already reported as missing are skipped. -/
def columnLoop (cols : List ColumnDefinition) (actual : List DColumn) :
    List String × List String :=
  match cols with
  | [] => ([], [])
  | cd :: rest =>
    let here :=
      match actual.find? (fun col => col.name = cd.name) with
      | some col => validateColumn cd col
      | none => ([], [])
    let there := columnLoop rest actual
    (here.1 ++ there.1, here.2 ++ there.2)

/-- Embeds `SchemaValidator.validate`.  `ds` is the outcome of
`DESCRIBE dataset_name`: `Except.error` models the caught exception path
returning `SchemaValidationResult(False, [f"Failed to describe ..."], [])`. -/
def validate (cols : List ColumnDefinition) (ds : Except String (List DColumn)) :
    VResult :=
  match ds with
  | .error e => ⟨false, ["Failed to describe dataset: " ++ e], []⟩
  | .ok actual =>
    let actualNames := (actual.map DColumn.name).dedup
    let expectedNames := (cols.map ColumnDefinition.name).dedup
    let missing := expectedNames.filter (fun n => n ∉ actualNames)
    let extra := actualNames.filter (fun n => n ∉ expectedNames)
    let e0 : List String :=
      if missing.isEmpty then []
      else ["Missing required columns: " ++ toString missing]
    let w0 : List String :=
      if extra.isEmpty then []
      else ["Extra columns found (not in contract): " ++ toString extra]
    let body := columnLoop cols actual
    let errors := e0 ++ body.1
    let warnings := w0 ++ body.2
    ⟨errors.length == 0, errors, warnings⟩

end SchemaValidator

/-! ## Quality validator

Embeds `QualityValidator.validate` and `QualityValidator._validate_rule`
from `src/comboi/contracts/quality_validator.py`.  The DuckDB connection
is modelled as an engine of query effects, one per SQL shape issued by
`_validate_rule`; `Except.error` models a raised exception (malformed SQL,
missing referenced column, ...).  The `custom_sql` query is passed to the
engine verbatim; the `{dataset}` templating is absorbed into the engine,
which is bound to one dataset view. -/

structure QualityRule where
  name : String
  type : String
  severity : String
  column : Option String := none
  query : Option String := none
  expected : Option Val := none
  min_rows : Option Int := none
deriving DecidableEq

structure QEngine where
  dupCount : String → Except String Nat
  nullCount : String → Except String Nat
  rowCount : Except String Nat
  scalarQuery : String → Except String Val

namespace QualityValidator

/-- Embeds the `try` body of `QualityValidator._validate_rule`: dispatch on
`rule.type`, one query per branch, the violation message bucketed by the
rule's own severity.  Every branch performs at most one append after its
query, so a raised exception (`Except.error`) discards no earlier
appends, exactly as in the source. -/
def ruleBranch (eng : QEngine) (rule : QualityRule) :
    Except String (List String × List String) :=
  if rule.type = "uniqueness" then
    match rule.column with
    | none => .ok (["Rule " ++ rule.name ++ ": uniqueness rule requires column"], [])
    | some col => do
      let d ← eng.dupCount col
      if 0 < d then
        let msg := "Rule " ++ rule.name ++ ": Found " ++ toString d ++
          " duplicate values in column " ++ col
        if rule.severity = "error" then pure ([msg], []) else pure ([], [msg])
      else pure ([], [])
  else if rule.type = "not_null" then
    match rule.column with
    | none => .ok (["Rule " ++ rule.name ++ ": not_null rule requires column"], [])
    | some col => do
      let n ← eng.nullCount col
      if 0 < n then
        let msg := "Rule " ++ rule.name ++ ": Found " ++ toString n ++
          " NULL values in column " ++ col
        if rule.severity = "error" then pure ([msg], []) else pure ([], [msg])
      else pure ([], [])
  else if rule.type = "volume" then do
    let n ← eng.rowCount
    match rule.min_rows with
    | some m =>
      if (n : Int) < m then
        let msg := "Rule " ++ rule.name ++ ": Row count " ++ toString n ++
          " is below minimum " ++ toString m
        if rule.severity = "error" then pure ([msg], []) else pure ([], [msg])
      else pure ([], [])
    | none => pure ([], [])
  else if rule.type = "custom_sql" then
    match rule.query with
    | none => .ok (["Rule " ++ rule.name ++ ": custom_sql rule requires query"], [])
    | some q => do
      let r ← eng.scalarQuery q
      match rule.expected with
      | some exp =>
        if r ≠ exp then
          let msg := "Rule " ++ rule.name ++ ": Query returned " ++ valDisplay r ++
            ", expected " ++ valDisplay exp
          if rule.severity = "error" then pure ([msg], []) else pure ([], [msg])
        else pure ([], [])
      | none => pure ([], [])
  else
    .ok ([], ["Rule " ++ rule.name ++ ": Unknown rule type " ++ rule.type])

/-- Embeds `QualityValidator._validate_rule`: the `except Exception` clause
converts a raised fault into a single error entry naming the rule. -/
def validateRule (eng : QEngine) (rule : QualityRule) :
    List String × List String :=
  match ruleBranch eng rule with
  | .ok p => p
  | .error e =>
      (["Rule " ++ rule.name ++ ": Error executing validation: " ++ e], [])

/-- Embeds the `for rule in ...` loop of `QualityValidator.validate`:
an `error`-severity rule's errors extend `errors` and its warnings extend
`warnings`; any other severity sends both to `warnings`. -/
def qualityLoop (eng : QEngine) : List QualityRule → List String × List String
  | [] => ([], [])
  | rule :: rest =>
    let p := validateRule eng rule
    let q := qualityLoop eng rest
    if rule.severity = "error" then (p.1 ++ q.1, p.2 ++ q.2)
    else ([] ++ q.1, p.1 ++ p.2 ++ q.2)

/-- Embeds `QualityValidator.validate`. -/
def validate (eng : QEngine) (rules : List QualityRule) : VResult :=
  let p := qualityLoop eng rules
  ⟨p.1.length == 0, p.1, p.2⟩

end QualityValidator

/-! ## SLA validator

Embeds `SLAValidator.validate`, `_validate_freshness` and
`_validate_completeness` from `src/comboi/contracts/sla_validator.py`.
The data file's observable state (existence and age in hours relative to
`datetime.now()`) is an input; ages are rationals since the source
computes fractional hours. -/

structure FileInfo where
  present : Bool
  ageHours : ℚ
deriving DecidableEq

/-- The `freshness` sub-document: `max_age_hours` key optional. -/
structure Freshness where
  max_age_hours : Option ℚ := none
deriving DecidableEq

/-- The `completeness` sub-document: both keys optional;
`expected_growth_rate` matters only by presence. -/
structure Completeness where
  min_row_count : Option Int := none
  has_expected_growth_rate : Bool := false
deriving DecidableEq

/-- The `SLA` object; a `none` sub-document models a falsy
(`None` or empty) dict, which the source skips. -/
structure SLAConfig where
  freshness : Option Freshness := none
  completeness : Option Completeness := none
deriving DecidableEq

namespace SLAValidator

/-- Embeds `SLAValidator._validate_freshness` (given the path's observable
state; the printed age keeps the rational's own rendering). -/
def validateFreshness (file : FileInfo) (f : Freshness) (pathStr : String) :
    List String × List String :=
  match f.max_age_hours with
  | some maxAge =>
    if file.present then
      if maxAge < file.ageHours then
        (["Data freshness violation: File is " ++ toString file.ageHours ++
          " hours old, max allowed is " ++ toString maxAge ++ " hours"], [])
      else ([], [])
    else (["Data file not found: " ++ pathStr], [])
  | none => ([], [])

/-- Embeds `SLAValidator._validate_completeness`. -/
def validateCompleteness (row_count : Int) (c : Completeness) :
    List String × List String :=
  let e1 : List String :=
    match c.min_row_count with
    | some m =>
      if row_count < m then
        ["Completeness violation: Row count " ++ toString row_count ++
          " is below minimum " ++ toString m]
      else []
    | none => []
  let w1 : List String :=
    if c.has_expected_growth_rate then
      ["Expected growth rate check requires historical data comparison (not implemented)"]
    else []
  (e1, w1)

/-- Embeds `SLAValidator.validate`. -/
def validate (sla : SLAConfig) (file : FileInfo) (pathStr : String)
    (row_count : Int) : VResult :=
  let pf :=
    match sla.freshness with
    | some f => validateFreshness file f pathStr
    | none => ([], [])
  let pc :=
    match sla.completeness with
    | some c => validateCompleteness row_count c
    | none => ([], [])
  let errors := pf.1 ++ pc.1
  let warnings := pf.2 ++ pc.2
  ⟨errors.length == 0, errors, warnings⟩

end SLAValidator

/-! ## Contract validator aggregation

Embeds `ContractValidationResult` and `ContractValidator.validate_and_report`
from `src/comboi/contracts/contract_validator.py`.  `dataset` carries
`self.contract.dataset`, the only contract field the aggregation reads;
`sla_result` is `none` when SLA validation was skipped
(`validate_sla=False`). -/

structure ContractValidationResult where
  dataset : String
  schema_result : VResult
  quality_result : VResult
  sla_result : Option VResult
deriving DecidableEq

namespace ContractValidationResult

/-- Embeds the `passed` property: short-circuit over the three results,
the SLA one only when present (Python truthiness of `self.sla_result`). -/
def passed (r : ContractValidationResult) : Bool :=
  if !r.schema_result.passed then false
  else if !r.quality_result.passed then false
  else
    match r.sla_result with
    | some s => if !s.passed then false else true
    | none => true

/-- Embeds the `all_errors` property. -/
def all_errors (r : ContractValidationResult) : List String :=
  r.schema_result.errors ++ r.quality_result.errors ++
    (match r.sla_result with
     | some s => s.errors
     | none => [])

/-- Embeds the `all_warnings` property. -/
def all_warnings (r : ContractValidationResult) : List String :=
  r.schema_result.warnings ++ r.quality_result.warnings ++
    (match r.sla_result with
     | some s => s.warnings
     | none => [])

end ContractValidationResult

namespace ContractValidator

/-- Embeds the verdict tail of `ContractValidator.validate_and_report`
(after the logging calls): returns `True` when the aggregate result
passed, otherwise raises `RuntimeError(error_summary)` where
`error_summary` is the f-string
`f"Contract validation failed for {dataset}: {len(all_errors)} errors"`. -/
def validate_and_report (r : ContractValidationResult) : Except String Bool :=
  if r.passed then .ok true
  else
    .error ("Contract validation failed for " ++ r.dataset ++ ": " ++
      toString r.all_errors.length ++ " errors")

end ContractValidator

/-! ## Substring test helper (used to state what an error message does or
does not contain). -/

def startsWithChars : List Char → List Char → Bool
  | [], _ => true
  | _ :: _, [] => false
  | a :: as, b :: bs => a = b && startsWithChars as bs

def hasSubChars (needle : List Char) : List Char → Bool
  | [] => needle.isEmpty
  | c :: rest => startsWithChars needle (c :: rest) || hasSubChars needle rest

/-- `hasSub needle hay` holds when `needle` occurs contiguously in `hay`. -/
def hasSub (needle hay : String) : Bool :=
  hasSubChars needle.data hay.data

/-- A concrete query engine whose uniqueness query reports two duplicate
groups; used to instantiate universally quantified theorems. -/
def qeTest : QEngine :=
  ⟨fun _ => .ok 2, fun _ => .ok 0, .ok 5, fun _ => .ok (.int 0)⟩

/-- A concrete query engine whose every query raises, as DuckDB does for a
reference to a missing column. -/
def qeFail : QEngine :=
  ⟨fun c => .error ("Binder Error: column " ++ c ++ " not found"),
   fun c => .error ("Binder Error: column " ++ c ++ " not found"),
   .error "Catalog Error: table missing",
   fun _ => .error "Parser Error: syntax error"⟩

end Comboi

/-! ## Theorems -/

namespace Comboi

lemma length_beq_zero_eq_isEmpty {α : Type} (l : List α) :
    (l.length == 0) = l.isEmpty := by
  cases l <;> rfl

/-- Claim C1, counterexample: the empty string is a name outside the fixed
enumeration `bronze`/`silver`/`gold`, yet `execution_order` returns the
full order for it instead of failing with an unknown-stage error, because
the guard `if not selected` treats the empty string like `None`. -/
theorem execution_order_empty_string_cex :
    execution_order (some "") = .ok ["bronze", "silver", "gold"] ∧
    "" ∉ stageOrder := by
  constructor
  · rfl
  · decide

/-- Claim C1 (amended): `execution_order` of `None`, `"all"` or the empty
string returns the full order `[bronze, silver, gold]`; for every name
that lowercases to a valid stage it returns the contiguous suffix of the
fixed order starting there; and every non-empty name other than `"all"`
whose lowercasing is outside the fixed enumeration fails with an
unknown-stage error. -/
theorem execution_order_spec :
    execution_order none = .ok ["bronze", "silver", "gold"] ∧
    execution_order (some "all") = .ok ["bronze", "silver", "gold"] ∧
    execution_order (some "") = .ok ["bronze", "silver", "gold"] ∧
    (∀ s : String, pyLower s = "bronze" →
      execution_order (some s) = .ok ["bronze", "silver", "gold"]) ∧
    (∀ s : String, pyLower s = "silver" →
      execution_order (some s) = .ok ["silver", "gold"]) ∧
    (∀ s : String, pyLower s = "gold" →
      execution_order (some s) = .ok ["gold"]) ∧
    (∀ s : String, s ≠ "" → s ≠ "all" → pyLower s ∉ stageOrder →
      execution_order (some s) = .error ("Unknown stage " ++ s)) := by
  refine ⟨rfl, rfl, rfl, ?_, ?_, ?_, ?_⟩
  · intro s h
    have hs1 : ¬ s = "" := by intro he; subst he; exact absurd h (by decide)
    have hs2 : ¬ s = "all" := by intro he; subst he; exact absurd h (by decide)
    simp only [execution_order]
    rw [if_neg (not_or.mpr ⟨hs1, hs2⟩), h]
    rfl
  · intro s h
    have hs1 : ¬ s = "" := by intro he; subst he; exact absurd h (by decide)
    have hs2 : ¬ s = "all" := by intro he; subst he; exact absurd h (by decide)
    simp only [execution_order]
    rw [if_neg (not_or.mpr ⟨hs1, hs2⟩), h]
    rfl
  · intro s h
    have hs1 : ¬ s = "" := by intro he; subst he; exact absurd h (by decide)
    have hs2 : ¬ s = "all" := by intro he; subst he; exact absurd h (by decide)
    simp only [execution_order]
    rw [if_neg (not_or.mpr ⟨hs1, hs2⟩), h]
    rfl
  · intro s h1 h2 h3
    simp only [execution_order]
    rw [if_neg (not_or.mpr ⟨h1, h2⟩), if_neg h3]

/-- Witness for C1's amended theorem at concrete inputs. -/
theorem execution_order_spec_witness :
    execution_order (some "SILVER") = .ok ["silver", "gold"] ∧
    execution_order (some "quartz") = .error ("Unknown stage " ++ "quartz") :=
  ⟨execution_order_spec.2.2.2.2.1 "SILVER" (by decide),
   execution_order_spec.2.2.2.2.2.2 "quartz" (by decide) (by decide) (by decide)⟩

/-- Claim C2: a worker invocation runs `run_stage` exactly once, on the
message's stage; on a raised failure nothing is enqueued and the failure
propagates; on success it enqueues nothing when `remaining` is empty, and
exactly `{config_path, stage := remaining[0], remaining := remaining[1:]}`
when `remaining` is non-empty. -/
theorem executor_main_spec :
    ∀ (run_stage : String → Except String String) (msg : ContinuationMessage),
      (Executor.main run_stage msg).ranStages = [msg.stage] ∧
      (∀ e, run_stage msg.stage = .error e →
        Executor.main run_stage msg = ⟨[msg.stage], [], some e⟩) ∧
      (∀ r, run_stage msg.stage = .ok r → msg.remaining = [] →
        Executor.main run_stage msg = ⟨[msg.stage], [], none⟩) ∧
      (∀ r next rest, run_stage msg.stage = .ok r → msg.remaining = next :: rest →
        Executor.main run_stage msg =
          ⟨[msg.stage], [⟨msg.config_path, next, rest⟩], none⟩) := by
  intro run_stage msg
  refine ⟨?_, ?_, ?_, ?_⟩
  · cases h : run_stage msg.stage <;> simp [Executor.main, h]
  · intro e h
    simp [Executor.main, h]
  · intro r h hrem
    simp [Executor.main, h, hrem]
  · intro r next rest h hrem
    simp [Executor.main, Executor.enqueue_next, h, hrem]

/-- Witness for C2's theorem at a concrete task outcome and message. -/
theorem executor_main_spec_witness :
    Executor.main (fun _ => Except.ok "done")
        ⟨"configs/default.yml", "bronze", ["silver", "gold"]⟩ =
      ⟨["bronze"], [⟨"configs/default.yml", "silver", ["gold"]⟩], none⟩ :=
  (executor_main_spec (fun _ => Except.ok "done")
      ⟨"configs/default.yml", "bronze", ["silver", "gold"]⟩).2.2.2
    "done" "silver" ["gold"] rfl rfl

/-- Claim C3: every result any of the three validators can return
satisfies `passed = errors.isEmpty`. -/
theorem validators_passed_iff_no_errors :
    (∀ cols ds, (SchemaValidator.validate cols ds).passed =
      (SchemaValidator.validate cols ds).errors.isEmpty) ∧
    (∀ eng rules, (QualityValidator.validate eng rules).passed =
      (QualityValidator.validate eng rules).errors.isEmpty) ∧
    (∀ sla file pathStr n, (SLAValidator.validate sla file pathStr n).passed =
      (SLAValidator.validate sla file pathStr n).errors.isEmpty) := by
  refine ⟨?_, ?_, ?_⟩
  · intro cols ds
    cases ds with
    | error e => rfl
    | ok actual => exact length_beq_zero_eq_isEmpty _
  · intro eng rules
    exact length_beq_zero_eq_isEmpty _
  · intro sla file pathStr n
    exact length_beq_zero_eq_isEmpty _

/-- Claim C4: with all three results present, the aggregate `passed` is
the conjunction of the three `passed` fields, and `all_errors` /
`all_warnings` concatenate in the order schema, quality, SLA. -/
theorem contract_aggregation_spec :
    ∀ (ds : String) (s q r : VResult),
      ContractValidationResult.passed ⟨ds, s, q, some r⟩ =
        (s.passed && q.passed && r.passed) ∧
      ContractValidationResult.all_errors ⟨ds, s, q, some r⟩ =
        s.errors ++ q.errors ++ r.errors ∧
      ContractValidationResult.all_warnings ⟨ds, s, q, some r⟩ =
        s.warnings ++ q.warnings ++ r.warnings := by
  intro ds s q r
  refine ⟨?_, rfl, rfl⟩
  cases hs : s.passed <;> cases hq : q.passed <;> cases hr : r.passed <;>
    simp [ContractValidationResult.passed, hs, hq, hr]

lemma except_bind_ok {ε α β : Type} (a : α) (f : α → Except ε β) :
    (Except.ok (ε := ε) a >>= f) = f a := rfl

lemma except_bind_err {ε α β : Type} (e : ε) (f : α → Except ε β) :
    (Except.error (α := α) e >>= f) = Except.error e := rfl

lemma except_pure_def {ε α : Type} (a : α) :
    (pure a : Except ε α) = Except.ok a := rfl

lemma qualityLoop_errors_filter (eng : QEngine) (rules : List QualityRule) :
    (QualityValidator.qualityLoop eng rules).1 =
      (QualityValidator.qualityLoop eng
        (rules.filter (fun r => r.severity == "error"))).1 := by
  induction rules with
  | nil => rfl
  | cons r rest ih =>
    by_cases h : r.severity = "error" <;>
      simp [QualityValidator.qualityLoop, List.filter_cons, h, ih]

lemma qualityLoop_append (eng : QEngine) (xs ys : List QualityRule) :
    QualityValidator.qualityLoop eng (xs ++ ys) =
      ((QualityValidator.qualityLoop eng xs).1 ++ (QualityValidator.qualityLoop eng ys).1,
       (QualityValidator.qualityLoop eng xs).2 ++ (QualityValidator.qualityLoop eng ys).2) := by
  induction xs with
  | nil => simp [QualityValidator.qualityLoop]
  | cons r rest ih =>
    by_cases h : r.severity = "error" <;>
      simp [QualityValidator.qualityLoop, h, ih, List.append_assoc]

/-- Claim C5: warning-severity rules never contribute to `errors` — the
error list of a run equals that of the run restricted to the
error-severity rules — while a semantically identical `uniqueness` rule
over the same data yields, at severity `warning`, only a warning with
`passed = true`, and at severity `error`, an error with `passed = false`. -/
theorem quality_warning_severity_spec :
    (∀ (eng : QEngine) (rules : List QualityRule),
      (QualityValidator.validate eng rules).errors =
        (QualityValidator.validate eng
          (rules.filter (fun r => r.severity == "error"))).errors) ∧
    (∀ (eng : QEngine) (nm col : String) (d : Nat),
      eng.dupCount col = .ok d → 0 < d →
      QualityValidator.validate eng
          [⟨nm, "uniqueness", "warning", some col, none, none, none⟩] =
        ⟨true, [],
          ["Rule " ++ nm ++ ": Found " ++ toString d ++
            " duplicate values in column " ++ col]⟩ ∧
      QualityValidator.validate eng
          [⟨nm, "uniqueness", "error", some col, none, none, none⟩] =
        ⟨false,
          ["Rule " ++ nm ++ ": Found " ++ toString d ++
            " duplicate values in column " ++ col], []⟩) := by
  constructor
  · intro eng rules
    exact qualityLoop_errors_filter eng rules
  · intro eng nm col d hd hpos
    constructor <;>
      simp [QualityValidator.validate, QualityValidator.qualityLoop,
        QualityValidator.validateRule, QualityValidator.ruleBranch, hd, hpos,
        except_bind_ok, except_pure_def]

/-- Witness for C5's theorem: a concrete engine reporting two duplicate
groups, at both severities. -/
theorem quality_warning_severity_spec_witness :
    QualityValidator.validate qeTest
        [⟨"dup_check", "uniqueness", "warning", some "id", none, none, none⟩] =
      ⟨true, [],
        ["Rule " ++ "dup_check" ++ ": Found " ++ toString 2 ++
          " duplicate values in column " ++ "id"]⟩ ∧
    QualityValidator.validate qeTest
        [⟨"dup_check", "uniqueness", "error", some "id", none, none, none⟩] =
      ⟨false,
        ["Rule " ++ "dup_check" ++ ": Found " ++ toString 2 ++
          " duplicate values in column " ++ "id"], []⟩ :=
  quality_warning_severity_spec.2 qeTest "dup_check" "id" 2 rfl (by decide)

/-- Claim C6, counterexample: a `warning`-severity rule whose query raises
gets its fault message routed to `warnings`, not to `errors` — so the
fault is not recorded in the errors list regardless of severity. -/
theorem quality_fault_warning_severity_cex :
    (QualityValidator.validate qeFail
        [⟨"r1", "uniqueness", "warning", some "x", none, none, none⟩]).errors = [] ∧
    (QualityValidator.validate qeFail
        [⟨"r1", "uniqueness", "warning", some "x", none, none, none⟩]).warnings =
      ["Rule r1: Error executing validation: Binder Error: column x not found"] ∧
    (QualityValidator.validate qeFail
        [⟨"r1", "uniqueness", "warning", some "x", none, none, none⟩]).passed = true :=
  ⟨rfl, rfl, rfl⟩

/-- Claim C6 (amended): a rule whose execution raises is caught and turned
into one message naming the rule and the underlying fault; the message is
recorded in `errors` when the rule's severity is `error`, and in
`warnings` otherwise; in both cases every other declared rule is still
evaluated and keeps its own outcome. -/
theorem quality_fault_bucketing_spec :
    ∀ (eng : QEngine) (r : QualityRule) (e : String)
      (pre post : List QualityRule),
      QualityValidator.ruleBranch eng r = .error e →
      (r.severity = "error" →
        (QualityValidator.validate eng (pre ++ r :: post)).errors =
          (QualityValidator.validate eng pre).errors ++
            ("Rule " ++ r.name ++ ": Error executing validation: " ++ e) ::
              (QualityValidator.validate eng post).errors ∧
        (QualityValidator.validate eng (pre ++ r :: post)).warnings =
          (QualityValidator.validate eng pre).warnings ++
            (QualityValidator.validate eng post).warnings) ∧
      (r.severity ≠ "error" →
        (QualityValidator.validate eng (pre ++ r :: post)).errors =
          (QualityValidator.validate eng pre).errors ++
            (QualityValidator.validate eng post).errors ∧
        (QualityValidator.validate eng (pre ++ r :: post)).warnings =
          (QualityValidator.validate eng pre).warnings ++
            ("Rule " ++ r.name ++ ": Error executing validation: " ++ e) ::
              (QualityValidator.validate eng post).warnings) := by
  intro eng r e pre post hbr
  have hrule : QualityValidator.validateRule eng r =
      (["Rule " ++ r.name ++ ": Error executing validation: " ++ e], []) := by
    simp [QualityValidator.validateRule, hbr]
  constructor <;> intro hsev <;>
    constructor <;>
      simp [QualityValidator.validate, qualityLoop_append,
        QualityValidator.qualityLoop, hrule, hsev]

/-- Witness for C6's amended theorem: a concrete failing engine, one rule
each side, severity `error`. -/
theorem quality_fault_bucketing_spec_witness :
    (QualityValidator.validate qeFail
        ([] ++ (⟨"r2", "not_null", "error", some "x", none, none, none⟩ : QualityRule) :: [])).errors =
      (QualityValidator.validate qeFail []).errors ++
        ("Rule " ++ "r2" ++ ": Error executing validation: " ++
          "Binder Error: column x not found") ::
          (QualityValidator.validate qeFail []).errors ∧
    (QualityValidator.validate qeFail
        ([] ++ (⟨"r2", "not_null", "error", some "x", none, none, none⟩ : QualityRule) :: [])).warnings =
      (QualityValidator.validate qeFail []).warnings ++
        (QualityValidator.validate qeFail []).warnings :=
  (quality_fault_bucketing_spec qeFail
      ⟨"r2", "not_null", "error", some "x", none, none, none⟩
      "Binder Error: column x not found" [] [] rfl).1 rfl

lemma dupGroupCount_pos_iff (cells : List (Option Val)) :
    0 < sqlDupGroupCount cells ↔ ∃ v ∈ cells, 2 ≤ cells.count v := by
  unfold sqlDupGroupCount
  rw [List.length_pos_iff_exists_mem]
  constructor
  · rintro ⟨v, hv⟩
    rw [List.mem_filter] at hv
    obtain ⟨hmem, hp⟩ := hv
    exact ⟨v, List.mem_dedup.mp hmem, of_decide_eq_true hp⟩
  · rintro ⟨v, hmem, hcnt⟩
    exact ⟨v, List.mem_filter.mpr
      ⟨List.mem_dedup.mpr hmem, decide_eq_true hcnt⟩⟩

/-- Claim C7, counterexample: a nullable column whose only repeated value
is NULL (`[NULL, NULL]`) does produce a uniqueness error, because the
duplicate query's `GROUP BY` collects the NULLs into one group of size
two — NULLs are not ignored. -/
theorem schema_unique_nulls_cex :
    (SchemaValidator.validate
        [⟨"id", "INTEGER", true, [{ unique := some true }]⟩]
        (.ok [⟨"id", "INTEGER", "YES", [none, none]⟩])).errors =
      ["Column id has duplicates but contract requires UNIQUE"] ∧
    (SchemaValidator.validate
        [⟨"id", "INTEGER", true, [{ unique := some true }]⟩]
        (.ok [⟨"id", "INTEGER", "YES", [none, none]⟩])).passed = false :=
  ⟨rfl, rfl⟩

/-- Claim C7 (amended): the unique-constraint check treats NULL like any
other value: it reports an error exactly when some cell value — the NULL
group included — occurs at least twice in the column, and it never
produces a warning. -/
theorem schema_unique_spec :
    ∀ (nm ty : String) (cells : List (Option Val)),
      (SchemaValidator.validateColumn ⟨nm, ty, true, [{ unique := some true }]⟩
          ⟨nm, ty, "YES", cells⟩).2 = [] ∧
      ((SchemaValidator.validateColumn ⟨nm, ty, true, [{ unique := some true }]⟩
          ⟨nm, ty, "YES", cells⟩).1 ≠ [] ↔
        ∃ v ∈ cells, 2 ≤ cells.count v) := by
  intro nm ty cells
  constructor
  · rfl
  · rw [← dupGroupCount_pos_iff]
    by_cases h : 0 < sqlDupGroupCount cells <;>
      simp [SchemaValidator.validateColumn, SchemaValidator.constraintChecks, h]

lemma dictGet_dictSet_self (doc : List (String × JVal)) (k : String) (v : JVal) :
    dictGet (dictSet doc k v) k = some v := by
  induction doc with
  | nil => simp [dictSet, dictGet]
  | cons kv rest ih =>
    obtain ⟨k', v'⟩ := kv
    by_cases h : k' = k <;> simp [dictSet, dictGet, h, ih]

/-- Claim C8: on the checkpoint store, `update(k, v)` followed by
`get(k, default)` returns `v`, for any document state; and `get` on a key
absent from the document returns the supplied default unchanged. -/
theorem checkpoint_roundtrip_spec :
    (∀ (doc : List (String × JVal)) (k : String) (v d : JVal),
      (CheckpointStore.get (CheckpointStore.update doc k v) k d).1 = v) ∧
    (∀ (doc : List (String × JVal)) (k : String) (d : JVal),
      dictGet doc k = none → (CheckpointStore.get doc k d).1 = d) := by
  constructor
  · intro doc k v d
    simp [CheckpointStore.get, CheckpointStore.update, dictGet_dictSet_self]
  · intro doc k d h
    simp [CheckpointStore.get, h]

/-- Witness for C8's theorem at a concrete key, value and document. -/
theorem checkpoint_roundtrip_spec_witness :
    (CheckpointStore.get (CheckpointStore.update [] "orders_watermark" (.num 42))
        "orders_watermark" .null).1 = .num 42 ∧
    (CheckpointStore.get [("users_watermark", JVal.num 7)] "orders_watermark"
        (.str "1970-01-01")).1 = .str "1970-01-01" :=
  ⟨checkpoint_roundtrip_spec.1 [] "orders_watermark" (.num 42) .null,
   checkpoint_roundtrip_spec.2 [("users_watermark", .num 7)] "orders_watermark"
     (.str "1970-01-01") rfl⟩

/-- Claim C9, counterexample: a failing validation with the single error
`"colX missing"` makes `validate_and_report` raise the message
`"Contract validation failed for ds: 1 errors"`, which does not contain
the error message at all — only the dataset name and the total count. -/
theorem validate_and_report_cex :
    ContractValidator.validate_and_report
        ⟨"ds", ⟨false, ["colX missing"], []⟩, ⟨true, [], []⟩, some ⟨true, [], []⟩⟩ =
      .error "Contract validation failed for ds: 1 errors" ∧
    hasSub "colX missing" "Contract validation failed for ds: 1 errors" = false :=
  ⟨rfl, rfl⟩

/-- Claim C9 (amended): when the aggregate verdict fails,
`validate_and_report` raises a terminal failure whose message names the
dataset and the total error count (the individual error messages are
logged, not included in the raised message); when the verdict passes it
returns `True` and raises nothing. -/
theorem validate_and_report_spec :
    ∀ r : ContractValidationResult,
      (r.passed = true → ContractValidator.validate_and_report r = .ok true) ∧
      (r.passed = false →
        ContractValidator.validate_and_report r =
          .error ("Contract validation failed for " ++ r.dataset ++ ": " ++
            toString r.all_errors.length ++ " errors")) := by
  intro r
  constructor <;> intro h <;> simp [ContractValidator.validate_and_report, h]

/-- Witness for C9's amended theorem at concrete results. -/
theorem validate_and_report_spec_witness :
    ContractValidator.validate_and_report
        ⟨"ds", ⟨true, [], []⟩, ⟨true, [], []⟩, none⟩ = .ok true ∧
    ContractValidator.validate_and_report
        ⟨"ds", ⟨false, ["colX missing"], []⟩, ⟨true, [], []⟩, none⟩ =
      .error ("Contract validation failed for " ++ "ds" ++ ": " ++
        toString ([("colX missing" : String)] ++ [] ++ []).length ++ " errors") :=
  ⟨(validate_and_report_spec ⟨"ds", ⟨true, [], []⟩, ⟨true, [], []⟩, none⟩).1 rfl,
   (validate_and_report_spec
      ⟨"ds", ⟨false, ["colX missing"], []⟩, ⟨true, [], []⟩, none⟩).2 rfl⟩

lemma notLikeEmailCount_pos_iff (cells : List (Option Val)) :
    0 < sqlNotLikeEmailCount cells ↔
      ∃ v, some v ∈ cells ∧ likeAtDot (valDisplay v) = false := by
  unfold sqlNotLikeEmailCount
  rw [List.countP_pos_iff]
  constructor
  · rintro ⟨c, hmem, hp⟩
    cases c with
    | none => simp at hp
    | some v =>
      refine ⟨v, hmem, ?_⟩
      simpa using hp
  · rintro ⟨v, hmem, hv⟩
    exact ⟨some v, hmem, by simpa using hv⟩

/-- Claim C10: a pattern constraint whose pattern lacks `'@'` performs no
check at all (no error, no warning); with `'@'` present, the only check is
the `LIKE '%@%.%'` shape test on non-NULL values, it contributes no error,
and it warns exactly when some non-NULL value fails the shape test. -/
theorem schema_pattern_spec :
    ∀ (nm ty pat : String) (cells : List (Option Val)),
      (pat.data.contains '@' = false →
        SchemaValidator.validateColumn ⟨nm, ty, true, [{ pattern := some pat }]⟩
          ⟨nm, ty, "YES", cells⟩ = ([], [])) ∧
      (pat.data.contains '@' = true →
        (SchemaValidator.validateColumn ⟨nm, ty, true, [{ pattern := some pat }]⟩
            ⟨nm, ty, "YES", cells⟩).1 = [] ∧
        ((SchemaValidator.validateColumn ⟨nm, ty, true, [{ pattern := some pat }]⟩
            ⟨nm, ty, "YES", cells⟩).2 ≠ [] ↔
          ∃ v, some v ∈ cells ∧ likeAtDot (valDisplay v) = false)) := by
  intro nm ty pat cells
  constructor
  · intro h
    have h' : '@' ∉ pat.data := by simpa using h
    simp [SchemaValidator.validateColumn, SchemaValidator.constraintChecks, h']
  · intro h
    have h' : '@' ∈ pat.data := by simpa using h
    refine ⟨rfl, ?_⟩
    rw [← notLikeEmailCount_pos_iff]
    by_cases hc : 0 < sqlNotLikeEmailCount cells <;>
      simp [SchemaValidator.validateColumn, SchemaValidator.constraintChecks, h', hc]

/-- Witness for C10's theorem: a pattern without `'@'` checks nothing even
on a value that does not match it, and a pattern with `'@'` on an
RFC-shaped value produces no warning. -/
theorem schema_pattern_spec_witness :
    SchemaValidator.validateColumn
        ⟨"code", "VARCHAR", true, [{ pattern := some "[0-9]+" }]⟩
        ⟨"code", "VARCHAR", "YES", [some (.str "abc")]⟩ = ([], []) ∧
    (SchemaValidator.validateColumn
        ⟨"email", "VARCHAR", true, [{ pattern := some "^[a-z]+@[a-z]+[.][a-z]+$" }]⟩
        ⟨"email", "VARCHAR", "YES", [some (.str "a@b.c")]⟩).1 = [] :=
  ⟨(schema_pattern_spec "code" "VARCHAR" "[0-9]+" [some (.str "abc")]).1 rfl,
   ((schema_pattern_spec "email" "VARCHAR" "^[a-z]+@[a-z]+[.][a-z]+$"
      [some (.str "a@b.c")]).2 rfl).1⟩

end Comboi
